import Mathlib

/-!
Verification development for the aviationwx VPN manager
(`scripts/vpn-manager.py` and `scripts/vpn-handlers/`).

The Python source is shallowly embedded: dictionaries become structures
with `Option` fields (`none` models an absent key or a `None` value),
Python string operations map to structurally recursive `String`
operations defined below, and functions that raise exceptions return
`Except String`.
-/

/-! ## Python string primitives -/

/-- `sep.isPrefixOf s` on character lists (structural, so it evaluates
in the kernel). -/
def charsPrefix : List Char → List Char → Bool
  | [], _ => true
  | _ :: _, [] => false
  | a :: as, b :: bs => a == b && charsPrefix as bs

/-- Substring occurrence on character lists. -/
def charsContain (pat : List Char) : List Char → Bool
  | [] => charsPrefix pat []
  | c :: rest => charsPrefix pat (c :: rest) || charsContain pat rest

/-- Python's `pat in s` test on strings. -/
def strContains (s pat : String) : Bool :=
  charsContain pat.data s.data

/-- Helper for `pySplitChar`: accumulate the current piece (reversed). -/
def splitCharAux (sep : Char) : List Char → List Char → List String
  | acc, [] => [String.mk acc.reverse]
  | acc, c :: rest =>
      if c == sep then String.mk acc.reverse :: splitCharAux sep [] rest
      else splitCharAux sep (c :: acc) rest

/-- Python's `s.split(sep)` for a one-character separator (the source
only ever splits on `"."` and `"/"`). -/
def pySplitChar (s : String) (sep : Char) : List String :=
  splitCharAux sep [] s.data

/-- Python's `s.lower()`. -/
def strLower (s : String) : String :=
  String.mk (s.data.map Char.toLower)

/-- Python's `int(s)` restricted to the decimal digit strings the
configuration uses; any other input raises, modelled as `none`. -/
def pyToNat? (s : String) : Option Nat :=
  if s.data.isEmpty then none
  else if s.data.all Char.isDigit then
    some (s.data.foldl (fun n c => n * 10 + (c.toNat - 48)) 0)
  else none

/-- Python truthiness of an optional string value (`None`, absent key and
the empty string are falsy). -/
def truthy : Option String → Bool
  | none => false
  | some s => !s.isEmpty

/-- Rendering of a Python value that is either a string or `None` inside
an f-string (`f"{v}"`). -/
def pyStr : Option String → String
  | none => "None"
  | some s => s

/-! ## Address allocator (`vpn-handlers/base.py`, `assign_client_ip`) -/

/-- The slice of an existing VPN configuration that the allocator reads:
its `client_ip` entry, when present. -/
structure ExistingConfig where
  client_ip : Option String
deriving DecidableEq, Repr

/-- `used_ips`: for every config with a `client_ip` key, the part of the
value before the first `/` (`config['client_ip'].split('/')[0]`). -/
def collectUsedIps (existing : List ExistingConfig) : List String :=
  existing.filterMap fun c => c.client_ip.map fun ip => (pySplitChar ip '/').headD ""

/-- Candidate address in the `mask >= 24` branch:
`f"{ip_parts[0]}.{ip_parts[1]}.{ip_parts[2]}.{i}"`. -/
def mkIp24 (p0 p1 p2 : String) (i : Nat) : String :=
  p0 ++ "." ++ p1 ++ "." ++ p2 ++ "." ++ toString i

/-- Candidate address in the `mask < 24` branch:
`third = (i - 1) // 256`, `fourth = (i - 1) % 256`,
`f"{ip_parts[0]}.{ip_parts[1]}.{third}.{fourth}"`. -/
def mkIp16 (p0 p1 : String) (i : Nat) : String :=
  p0 ++ "." ++ p1 ++ "." ++ toString ((i - 1) / 256) ++ "." ++ toString ((i - 1) % 256)

/-- The `for i in range(...)` search: return the first candidate whose
address is not in `used`, suffixed with `/32`. -/
def findFreeIp (used : List String) (cand : Nat → String) : List Nat → Option String
  | [] => none
  | i :: rest =>
      let ip := cand i
      if ip ∈ used then findFreeIp used cand rest else some (ip ++ "/32")

/-- `VPNProtocolHandler.assign_client_ip` (base.py lines 86-132).
`int(...)` failures on malformed input are modelled as `.error`. -/
def assignClientIp (vpnSubnet : String) (existing : List ExistingConfig) :
    Except String String :=
  let subnetParts := pySplitChar vpnSubnet '/'
  let subnetBase := subnetParts.headD ""
  match (if subnetParts.length > 1 then pyToNat? (subnetParts.getD 1 "") else some 16) with
  | none => .error "ValueError"
  | some mask =>
    let ipParts := pySplitChar subnetBase '.'
    match pyToNat? (ipParts.getD 3 "") with
    | none => .error "ValueError"
    | some baseOctet =>
      let used := collectUsedIps existing
      let startIp := if baseOctet == 0 then baseOctet + 2 else baseOctet + 1
      let maxIp := if mask ≥ 24 then 254 else 65534
      let cand : Nat → String :=
        if mask ≥ 24 then mkIp24 (ipParts.getD 0 "") (ipParts.getD 1 "") (ipParts.getD 2 "")
        else mkIp16 (ipParts.getD 0 "") (ipParts.getD 1 "")
      match findFreeIp used cand (List.range' startIp (maxIp + 1 - startIp)) with
      | some ip => .ok ip
      | none => .error ("No available IPs in VPN subnet " ++ vpnSubnet)

/-! ## Filesystem model for atomic persistence
(`vpn-manager.py`, `_write_ipsec_configs`, `_write_wireguard_config`,
`_write_openvpn_configs`, `generate_client_configs`)

A filesystem is a finite map from path to (permission mode, content).
The operations are the POSIX calls the source issues: `open(p,'w')`
(which creates with default mode `0o644` under the service's umask, or
truncates keeping the existing mode), a completed `f.write`, `os.chmod`,
`os.rename` and `os.remove`. -/

structure FileRec where
  mode : Nat
  content : String
deriving DecidableEq, Repr

abbrev Fs := List (String × FileRec)

def fsGet (fs : Fs) (p : String) : Option FileRec :=
  (fs.find? fun e => e.1 == p).map Prod.snd

def fsSet (fs : Fs) (p : String) (r : FileRec) : Fs :=
  (p, r) :: fs.filter fun e => e.1 != p

def fsRemove (fs : Fs) (p : String) : Fs :=
  fs.filter fun e => e.1 != p

inductive FsOp where
  | openTrunc (p : String)
  | writeData (p : String) (c : String)
  | chmodOp (p : String) (m : Nat)
  | renameOp (src dst : String)
  | removeOp (p : String)
deriving DecidableEq, Repr

def applyOp (fs : Fs) : FsOp → Fs
  | .openTrunc p =>
      match fsGet fs p with
      | some r => fsSet fs p ⟨r.mode, ""⟩
      | none => fsSet fs p ⟨0o644, ""⟩
  | .writeData p c =>
      match fsGet fs p with
      | some r => fsSet fs p ⟨r.mode, c⟩
      | none => fs
  | .chmodOp p m =>
      match fsGet fs p with
      | some r => fsSet fs p ⟨m, r.content⟩
      | none => fs
  | .renameOp src dst =>
      match fsGet fs src with
      | some r => fsSet (fsRemove fs src) dst r
      | none => fs
  | .removeOp p => fsRemove fs p

def runOps (fs : Fs) (ops : List FsOp) : Fs :=
  ops.foldl applyOp fs

/-- Every state the filesystem passes through while executing `ops`,
including the initial and final states. -/
def trajStates (fs : Fs) : List FsOp → List Fs
  | [] => [fs]
  | op :: ops => fs :: trajStates (applyOp fs op) ops

/-! Concrete artifact paths (module-level constants in vpn-manager.py). -/

def ipsecConfFile : String := "/etc/ipsec-shared/ipsec.conf"

def ipsecSecretsFile : String := "/etc/ipsec-shared/ipsec.secrets"

def wgConfigFile : String := "/etc/wireguard-shared/wg0.conf"

def openvpnServerFile : String := "/etc/openvpn-shared/server.conf"

def openvpnPskFile : String := "/etc/openvpn-shared/psk.key"

def clientConfigDir : String := "/var/www/html/config/vpn-clients"

/-- `_write_ipsec_configs` (lines 279-307): plain write of `ipsec.conf`,
then temp-file/chmod/rename for `ipsec.secrets`. -/
def writeIpsecOps (conf secrets : String) : List FsOp :=
  [ .openTrunc ipsecConfFile, .writeData ipsecConfFile conf,
    .openTrunc (ipsecSecretsFile ++ ".tmp"),
    .writeData (ipsecSecretsFile ++ ".tmp") secrets,
    .chmodOp (ipsecSecretsFile ++ ".tmp") 0o600,
    .renameOp (ipsecSecretsFile ++ ".tmp") ipsecSecretsFile ]

/-- `_write_wireguard_config` (lines 309-322). -/
def writeWireguardOps (cfg : String) : List FsOp :=
  [ .openTrunc (wgConfigFile ++ ".tmp"),
    .writeData (wgConfigFile ++ ".tmp") cfg,
    .chmodOp (wgConfigFile ++ ".tmp") 0o600,
    .renameOp (wgConfigFile ++ ".tmp") wgConfigFile ]

/-- `_write_openvpn_configs` (lines 324-347): server.conf (mode `0o644`)
then psk.key (mode `0o600`), each via temp file and rename. -/
def writeOpenvpnOps (server psk : String) : List FsOp :=
  [ .openTrunc (openvpnServerFile ++ ".tmp"),
    .writeData (openvpnServerFile ++ ".tmp") server,
    .chmodOp (openvpnServerFile ++ ".tmp") 0o644,
    .renameOp (openvpnServerFile ++ ".tmp") openvpnServerFile,
    .openTrunc (openvpnPskFile ++ ".tmp"),
    .writeData (openvpnPskFile ++ ".tmp") psk,
    .chmodOp (openvpnPskFile ++ ".tmp") 0o600,
    .renameOp (openvpnPskFile ++ ".tmp") openvpnPskFile ]

/-- File name of a per-site client config in `generate_client_configs`
(lines 252-277): `f"{airport_id}_{protocol}_client.conf"`. -/
def clientConfigPath (airport_id protocol : String) : String :=
  clientConfigDir ++ "/" ++ airport_id ++ "_" ++ protocol ++ "_client.conf"

/-- The write sequence of `generate_client_configs` for one site: open
the FINAL path directly, write, then chmod to `0o600`. -/
def writeClientConfigOps (filepath content : String) : List FsOp :=
  [ .openTrunc filepath, .writeData filepath content, .chmodOp filepath 0o600 ]

/-- A reader of `path` sees either what was there before the write began
or the complete new content with owner-only permissions. -/
def secretViewOk (init : Fs) (path content : String) (s : Fs) : Prop :=
  fsGet s path = fsGet init path ∨ fsGet s path = some ⟨0o600, content⟩

/-- The set of paths an operation can affect. -/
def opTouches : FsOp → String → Prop
  | .openTrunc p, q => p = q
  | .writeData p _, q => p = q
  | .chmodOp p _, q => p = q
  | .renameOp src dst, q => src = q ∨ dst = q
  | .removeOp p, q => p = q

/-! ## Connection status checks
(`ipsec.py` `check_connection_status` lines 134-153,
`wireguard.py` lines 174-210, `openvpn.py` lines 192-222)

Each handler shells out to an external daemon query.  The possible
outcomes of that `subprocess.run` call are: completion with a return
code and captured stdout, a `FileNotFoundError` (tool not installed),
or any other exception (timeout, daemon unreachable, ...). -/

inductive ProcOutcome where
  | completed (returncode : Int) (stdout : String)
  | toolMissing (msg : String)
  | raised (msg : String)
deriving DecidableEq, Repr

structure ConnStatus where
  status : String
  details : String
deriving DecidableEq, Repr

/-- `IPSecHandler.check_connection_status`: classifies `ipsec status`
output; a single `except Exception` catches every failure
(`FileNotFoundError` included) and reports `down` with `str(e)`. -/
def ipsecCheckConnectionStatus (r : ProcOutcome) : ConnStatus :=
  match r with
  | .completed _ stdout =>
      let output := strLower stdout
      if strContains output "established" then ⟨"up", output⟩
      else if strContains output "connecting" || strContains output "initiating" then
        ⟨"connecting", output⟩
      else ⟨"down", output⟩
  | .toolMissing e => ⟨"down", e⟩
  | .raised e => ⟨"down", e⟩

/-- `WireGuardHandler.check_connection_status`: inspects `wg show wg0`. -/
def wireguardCheckConnectionStatus (r : ProcOutcome) : ConnStatus :=
  match r with
  | .completed rc stdout =>
      if rc != 0 then ⟨"down", "WireGuard interface wg0 not found"⟩
      else if strContains (strLower stdout) "latest handshake" then ⟨"up", stdout⟩
      else ⟨"down", "No active peers"⟩
  | .toolMissing _ => ⟨"down", "WireGuard tools not available"⟩
  | .raised e => ⟨"down", e⟩

/-- `OpenVPNHandler.check_connection_status`: checks whether an
`openvpn.*server.conf` process exists via `pgrep`. -/
def openvpnCheckConnectionStatus (r : ProcOutcome) : ConnStatus :=
  match r with
  | .completed rc _ =>
      if rc != 0 then ⟨"down", "OpenVPN server not running"⟩
      else ⟨"up", "OpenVPN server running"⟩
  | .toolMissing _ => ⟨"down", "OpenVPN tools not available"⟩
  | .raised e => ⟨"down", e⟩

/-! ## Health-check probe targets
(`ipsec.py` lines 155-169, `wireguard.py` lines 212-245,
`openvpn.py` lines 224-257)

Each handler pings one address computed from `remote_subnet`:
`gateway_ip = '.'.join(ip_parts[:-1]) + '.1'`.  The computation is
triplicated verbatim in the three handlers. -/

def ipsecGatewayIp (remote_subnet : String) : String :=
  let subnetParts := pySplitChar remote_subnet '/'
  let ipParts := pySplitChar (subnetParts.headD "") '.'
  String.intercalate "." ipParts.dropLast ++ ".1"

def wireguardGatewayIp (remote_subnet : String) : String :=
  let subnetParts := pySplitChar remote_subnet '/'
  let ipParts := pySplitChar (subnetParts.headD "") '.'
  String.intercalate "." ipParts.dropLast ++ ".1"

def openvpnGatewayIp (remote_subnet : String) : String :=
  let subnetParts := pySplitChar remote_subnet '/'
  let ipParts := pySplitChar (subnetParts.headD "") '.'
  String.intercalate "." ipParts.dropLast ++ ".1"

/-- The first host address of a CIDR (network address + 1), as the
specification describes the probe target.  Modelled from the spec for
comparison; the repository has no such function. -/
def firstHostOfCidr (cidr : String) : Option String :=
  let parts := pySplitChar cidr '/'
  match pyToNat? (parts.getD 1 "") with
  | none => none
  | some mask =>
    let octets := (pySplitChar (parts.headD "") '.').filterMap pyToNat?
    match octets with
    | [a, b, c, d] =>
      if a ≤ 255 ∧ b ≤ 255 ∧ c ≤ 255 ∧ d ≤ 255 ∧ mask ≤ 30 then
        let ip := ((a * 256 + b) * 256 + c) * 256 + d
        let host := (ip / 2 ^ (32 - mask)) * 2 ^ (32 - mask) + 1
        some (toString (host / 2 ^ 24 % 256) ++ "." ++ toString (host / 2 ^ 16 % 256)
          ++ "." ++ toString (host / 2 ^ 8 % 256) ++ "." ++ toString (host % 256))
      else none
    | _ => none

/-! ## Configuration data model
(`vpn-manager.py` `parse_vpn_configs`, lines 102-209)

A structure field of type `Option _` models a dictionary key that may be
absent or hold `None`.  Config values are modelled as strings, as the
configuration file supplies them. -/

structure WgSub where
  server_private_key : Option String := none
  server_public_key : Option String := none
  client_private_key : Option String := none
  client_public_key : Option String := none
  server_port : Option Nat := none
deriving DecidableEq, Repr

structure OvpnSub where
  psk : Option String := none
  server_port : Option Nat := none
  protocol : Option String := none
deriving DecidableEq, Repr

/-- A site's `vpn` sub-record in airports.json. -/
structure VpnRec where
  enabled : Bool := false
  type : Option String := none
  connection_name : Option String := none
  remote_subnet : Option String := none
  psk : Option String := none
  ike_version : Option String := none
  encryption : Option String := none
  dh_group : Option String := none
  lifetime : Option String := none
  wireguard : Option WgSub := none
  openvpn : Option OvpnSub := none
  client_ip : Option String := none
deriving DecidableEq, Repr

structure Airport where
  vpn : Option VpnRec := none
deriving DecidableEq, Repr

/-- `airports.json`: the `airports` mapping, in insertion order. -/
abbrev Config := List (String × Airport)

/-- The per-connection dictionary `parse_vpn_configs` builds.
`handler` records which protocol handler object was stored under the
`'handler'` key (fixed from the site's `type` before any branch runs);
`protocol` is the mutable `'protocol'` key, which the openvpn branch
overwrites with the transport protocol. -/
structure VpnCfg where
  airport_id : String
  connection_name : String
  protocol : String
  handler : String
  remote_subnet : Option String := none
  psk : Option String := none
  ike_version : String := "2"
  encryption : String := "aes256gcm128"
  dh_group : String := "14"
  lifetime : String := "3600"
  wireguard : Option WgSub := none
  openvpn : Option OvpnSub := none
  client_ip : Option String := none
  server_port : Nat := 0
deriving DecidableEq, Repr

/-! ## Server/secrets config generation (the three handlers) -/

/-- `dh_map = {'14': '2048', ...}.get(str(dh_group), '2048')`. -/
def dhMapGet (g : String) : String :=
  if g == "14" then "2048"
  else if g == "15" then "3072"
  else if g == "16" then "4096"
  else if g == "17" then "6144"
  else if g == "18" then "8192"
  else "2048"

def ipsecServerHeader : List String :=
  [ "# strongSwan IPsec configuration",
    "# Auto-generated from airports.json",
    "",
    "config setup",
    "    charondebug=\"ike 2, knl 2, cfg 2\"",
    "    uniqueids=never",
    "    strictcrlpolicy=no",
    "" ]

def ipsecConnStanza (conn_name : String) (cfg : VpnCfg) : List String :=
  let airport_id := cfg.airport_id
  let remote_subnet := pyStr cfg.remote_subnet
  let dh_bits := dhMapGet cfg.dh_group
  [ "# Connection for " ++ airport_id ++ " airport",
    "conn " ++ conn_name,
    "    type=tunnel",
    "    auto=add",
    "    keyexchange=ikev" ++ cfg.ike_version,
    "    ike=" ++ cfg.encryption ++ "-sha256-modp" ++ dh_bits ++ "!",
    "    esp=" ++ cfg.encryption ++ "-sha256-modp" ++ dh_bits ++ "!",
    "    left=%defaultroute",
    "    leftid=@vpn.aviationwx.org",
    "    leftsubnet=0.0.0.0/0",
    "    leftauth=psk",
    "    right=%any",
    "    rightid=@" ++ airport_id ++ ".remote",
    "    rightsubnet=" ++ remote_subnet,
    "    rightauth=psk",
    "    dpdaction=restart",
    "    dpddelay=30s",
    "    dpdtimeout=120s",
    "    rekey=yes",
    "    reauth=yes",
    "    fragmentation=yes",
    "    forceencaps=yes",
    "" ]

/-- `IPSecHandler.generate_server_config` (ipsec.py lines 21-74). -/
def ipsecGenerateServerConfig (vpn_configs : List (String × VpnCfg)) : String :=
  if vpn_configs.isEmpty then String.intercalate "\n" ipsecServerHeader
  else String.intercalate "\n"
    (ipsecServerHeader ++ vpn_configs.flatMap fun x => ipsecConnStanza x.1 x.2)

/-- `IPSecHandler.generate_secrets_config` (ipsec.py lines 76-94). -/
def ipsecGenerateSecretsConfig (vpn_configs : List (String × VpnCfg)) : String :=
  let header := ["# IPsec secrets", "# Auto-generated from airports.json", ""]
  if vpn_configs.isEmpty then String.intercalate "\n" header
  else String.intercalate "\n"
    (header ++ vpn_configs.filterMap fun x =>
      if truthy x.2.psk then some (": PSK \"" ++ pyStr x.2.psk ++ "\"") else none)

/-- `WireGuardHandler._get_server_ip_in_subnet` (wireguard.py 247-254). -/
def wgServerIpInSubnet (vpn_subnet : String) : String :=
  let subnetParts := pySplitChar vpn_subnet '/'
  let ipParts := pySplitChar (subnetParts.headD "") '.'
  (ipParts.getD 0 "") ++ "." ++ (ipParts.getD 1 "") ++ "." ++ (ipParts.getD 2 "") ++ ".1"

/-- `WireGuardHandler.generate_server_config` (wireguard.py lines 61-122). -/
def wireguardGenerateServerConfig (vpn_subnet : String)
    (vpn_configs : List (String × VpnCfg)) : String :=
  let base :=
    [ "# WireGuard server configuration",
      "# Auto-generated from airports.json",
      "",
      "[Interface]",
      "# Server IP in VPN subnet",
      "Address = " ++ wgServerIpInSubnet vpn_subnet ++ "/32",
      "ListenPort = 51820",
      "" ]
  let withKey :=
    match vpn_configs.head? with
    | none => base
    | some first =>
      let wgc := first.2.wireguard.getD {}
      if truthy wgc.server_private_key then
        base ++ ["PrivateKey = " ++ pyStr wgc.server_private_key, ""]
      else base
  let peers := vpn_configs.flatMap fun x =>
    let cfg := x.2
    let wgc := cfg.wireguard.getD {}
    if !truthy wgc.client_public_key then []
    else
      [ "# Peer: " ++ cfg.airport_id ++ " (" ++ x.1 ++ ")",
        "[Peer]",
        "PublicKey = " ++ pyStr wgc.client_public_key ]
      ++ (if truthy cfg.client_ip then ["AllowedIPs = " ++ pyStr cfg.client_ip] else [])
      ++ (if truthy cfg.remote_subnet then
            ["# Remote subnet: " ++ pyStr cfg.remote_subnet] else [])
      ++ [""]
  String.intercalate "\n" (withKey ++ peers)

/-- `OpenVPNHandler._get_server_network` (openvpn.py 259-263). -/
def openvpnServerNetwork (vpn_subnet : String) : String :=
  (pySplitChar vpn_subnet '/').headD ""

/-- `OpenVPNHandler._get_server_netmask` (openvpn.py 265-272). -/
def openvpnNetmask (vpn_subnet : String) : String :=
  let subnetParts := pySplitChar vpn_subnet '/'
  let mask := if subnetParts.length > 1 then (pyToNat? (subnetParts.getD 1 "")).getD 0 else 16
  let netmask := (0xffffffff >>> (32 - mask)) <<< (32 - mask)
  toString (netmask >>> 24 &&& 0xff) ++ "." ++ toString (netmask >>> 16 &&& 0xff) ++ "."
    ++ toString (netmask >>> 8 &&& 0xff) ++ "." ++ toString (netmask &&& 0xff)

/-- `OpenVPNHandler._get_base_server_config` (openvpn.py 274-288). -/
def openvpnBaseServerConfig (vpn_subnet : String) : String :=
  "# OpenVPN server configuration (no clients configured)\n"
  ++ "port 1194\n"
  ++ "proto udp\n"
  ++ "dev tun\n"
  ++ "server " ++ openvpnServerNetwork vpn_subnet ++ " " ++ openvpnNetmask vpn_subnet ++ "\n"
  ++ "keepalive 10 120\n"
  ++ "comp-lzo\n"
  ++ "verb 3\n"
  ++ "cipher AES-256-CBC\n"
  ++ "auth SHA256\n"
  ++ "persist-key\n"
  ++ "persist-tun\n"

/-- `OpenVPNHandler.generate_server_config` (openvpn.py lines 43-112).
The PSK looked up from the first config (or freshly generated) does not
appear in the emitted text, so it is not a parameter here. -/
def openvpnGenerateServerConfig (vpn_subnet : String)
    (vpn_configs : List (String × VpnCfg)) : String :=
  if vpn_configs.isEmpty then openvpnBaseServerConfig vpn_subnet
  else
    let lines :=
      [ "# OpenVPN server configuration",
        "# Auto-generated from airports.json",
        "",
        "port 1194",
        "proto udp",
        "dev tun",
        "",
        "# Server IP in VPN subnet",
        "server " ++ openvpnServerNetwork vpn_subnet ++ " " ++ openvpnNetmask vpn_subnet,
        "",
        "# PSK for authentication",
        "secret /etc/openvpn-shared/psk.key",
        "",
        "# Keepalive", "keepalive 10 120", "",
        "# Compression", "comp-lzo", "",
        "# Logging", "verb 3", "",
        "# Security", "cipher AES-256-CBC", "auth SHA256", "",
        "# Persistence", "persist-key", "persist-tun", "" ]
    let routes := vpn_configs.flatMap fun x =>
      let cfg := x.2
      if truthy cfg.client_ip && truthy cfg.remote_subnet then
        [ "# Route for " ++ cfg.airport_id ++ " (" ++ x.1 ++ ")",
          "route " ++ pyStr cfg.remote_subnet ++ " "
            ++ (pySplitChar (pyStr cfg.client_ip) '/').headD "",
          "" ]
      else []
    String.intercalate "\n" (lines ++ routes)

/-- `OpenVPNHandler.generate_psk_file` (openvpn.py lines 114-136);
`freshPsk` stands for the `generate_psk()` value drawn when the first
config has no PSK. -/
def openvpnGeneratePskFile (vpn_configs : List (String × VpnCfg)) (freshPsk : String) : String :=
  match vpn_configs.head? with
  | none => ""
  | some first =>
    let ovpn := first.2.openvpn.getD {}
    if truthy ovpn.psk then pyStr ovpn.psk else freshPsk

/-! ## Client config generation (the three handlers) -/

set_option linter.unusedVariables false in
/-- `IPSecHandler.generate_client_config` (ipsec.py lines 96-132): it
returns manual-configuration instructions and never raises; an absent
PSK is rendered by the f-string (as `None`). -/
def ipsecGenerateClientConfig (server_ip connection_name : String) (cfg : VpnCfg) :
    Except String String :=
  let airport_id := cfg.airport_id
  let remote_subnet := pyStr cfg.remote_subnet
  let psk := pyStr cfg.psk
  .ok ("# IPsec/IKEv2 Client Configuration for " ++ airport_id ++ "\n"
    ++ "# Manual configuration required - import these settings into your VPN client\n"
    ++ "\n"
    ++ "# Connection Settings:\n"
    ++ "# - Peer IP: " ++ server_ip ++ "\n"
    ++ "# - Pre-Shared Key: " ++ psk ++ "\n"
    ++ "# - Remote Subnet: " ++ remote_subnet ++ "\n"
    ++ "# - IKE Version: " ++ cfg.ike_version ++ "\n"
    ++ "# - Encryption: " ++ cfg.encryption ++ "\n"
    ++ "# - DH Group: " ++ cfg.dh_group ++ "\n"
    ++ "\n"
    ++ "# For UniFi Gateway:\n"
    ++ "# 1. Navigate to Settings > VPN > Site-to-Site VPN\n"
    ++ "# 2. Add new VPN connection:\n"
    ++ "#    - Type: Manual IPsec\n"
    ++ "#    - Peer IP: " ++ server_ip ++ "\n"
    ++ "#    - Pre-Shared Key: " ++ psk ++ "\n"
    ++ "#    - Remote Subnets: " ++ remote_subnet ++ "\n"
    ++ "#    - IKE Version: " ++ cfg.ike_version ++ "\n"
    ++ "#    - Encryption: " ++ cfg.encryption ++ "\n"
    ++ "#    - Hash: SHA-256\n"
    ++ "#    - DH Group: " ++ cfg.dh_group ++ "\n")

/-- `WireGuardHandler.generate_client_config` (wireguard.py lines
124-172): raises `ValueError` when the client private key or the server
public key is missing. -/
def wireguardGenerateClientConfig (server_ip connection_name : String) (cfg : VpnCfg) :
    Except String String :=
  let wgc := cfg.wireguard.getD {}
  if !truthy wgc.client_private_key || !truthy wgc.server_public_key then
    .error ("Missing keys for " ++ connection_name)
  else
    let lines :=
      [ "# WireGuard client configuration for " ++ cfg.airport_id,
        "# Connection: " ++ connection_name,
        "",
        "[Interface]",
        "PrivateKey = " ++ pyStr wgc.client_private_key ]
      ++ (if truthy cfg.client_ip then ["Address = " ++ pyStr cfg.client_ip] else [])
      ++ [ "",
           "[Peer]",
           "PublicKey = " ++ pyStr wgc.server_public_key,
           "Endpoint = " ++ server_ip ++ ":51820" ]
      ++ (if truthy cfg.remote_subnet then
            ["AllowedIPs = " ++ pyStr cfg.remote_subnet] else [])
      ++ ["PersistentKeepalive = 25"]
    .ok (String.intercalate "\n" lines)

/-- `OpenVPNHandler.generate_client_config` (openvpn.py lines 138-190):
raises `ValueError` when the PSK is missing. -/
def openvpnGenerateClientConfig (server_ip connection_name : String) (cfg : VpnCfg) :
    Except String String :=
  let ovpn := cfg.openvpn.getD {}
  if !truthy ovpn.psk then .error ("Missing PSK for " ++ connection_name)
  else
    let lines :=
      [ "# OpenVPN client configuration for " ++ cfg.airport_id,
        "# Connection: " ++ connection_name,
        "",
        "client",
        "dev tun",
        "proto udp",
        "remote " ++ server_ip ++ " 1194",
        "resolv-retry infinite",
        "nobind",
        "persist-key",
        "persist-tun",
        "",
        "# PSK (shared secret)",
        "<secret>",
        pyStr ovpn.psk,
        "</secret>",
        "",
        "# Cipher settings",
        "cipher AES-256-CBC",
        "auth SHA256",
        "",
        "# Compression",
        "comp-lzo",
        "",
        "verb 3" ]
      ++ (if truthy cfg.remote_subnet then
            ["route " ++ pyStr cfg.remote_subnet ++ " 255.255.255.255"] else [])
    .ok (String.intercalate "\n" lines)

/-! ## `parse_vpn_configs` (vpn-manager.py lines 102-209)

The random material drawn by `WireGuardHandler.generate_keypair()` and
`OpenVPNHandler.generate_psk()` is passed in explicitly, indexed by the
airport id.  The enabled sites' `vpn` dictionaries are shared between
`all_existing_configs` and the airports mapping (Python aliasing), so
they are carried as an explicit association list that each iteration may
update. -/

structure Fresh where
  wgServerKeys : String × String := ("", "")
  wgClientKeys : String × String := ("", "")
  ovpnPsk : String := ""
deriving Repr

/-- WireGuard branch, key generation (lines 150-166): keys are generated
only when `server_private_key` is falsy, and written into the existing
`wireguard` sub-dictionary (when the site has none, the fresh dictionary
is not attached back to the record). -/
def wgKeyBackfill (vpn : VpnRec) (serverKeys clientKeys : String × String) :
    VpnRec × WgSub :=
  let wgc := vpn.wireguard.getD {}
  if !truthy wgc.server_private_key then
    let wgc2 : WgSub := { wgc with
      server_private_key := some serverKeys.1,
      server_public_key := some serverKeys.2,
      client_private_key := some clientKeys.1,
      client_public_key := some clientKeys.2 }
    let vpn2 := match vpn.wireguard with
      | some _ => { vpn with wireguard := some wgc2 }
      | none => vpn
    (vpn2, wgc2)
  else (vpn, wgc)

/-- OpenVPN branch, PSK generation (lines 182-190). -/
def ovpnPskBackfill (vpn : VpnRec) (freshPsk : String) : VpnRec × OvpnSub :=
  let oc := vpn.openvpn.getD {}
  if !truthy oc.psk then
    let oc2 := { oc with psk := some freshPsk }
    let vpn2 := match vpn.openvpn with
      | some _ => { vpn with openvpn := some oc2 }
      | none => vpn
    (vpn2, oc2)
  else (vpn, oc)

/-- Client-IP assignment (lines 168-176 / 192-200): only when
`client_ip` is falsy; an allocator error skips the site (`continue`),
modelled as `none`. -/
def clientIpBackfill (vpn : VpnRec) (alloc : Except String String) : Option VpnRec :=
  if truthy vpn.client_ip then some vpn
  else match alloc with
    | .ok ip => some { vpn with client_ip := some ip }
    | .error _ => none

/-- Python `dict` assignment `d[k] = v`: replace in place or append. -/
def upsert (l : List (String × α)) (k : String) (v : α) : List (String × α) :=
  if l.any (fun e => e.1 == k) then l.map fun e => if e.1 == k then (k, v) else e
  else l ++ [(k, v)]

/-- First pass (lines 110-114): the enabled sites' `vpn` records. -/
def enabledRecs (config : Config) : List (String × VpnRec) :=
  config.filterMap fun x => match x.2.vpn with
    | some v => if v.enabled then some (x.1, v) else none
    | none => none

def recLookup (recs : List (String × VpnRec)) (aid : String) : Option VpnRec :=
  (recs.find? fun e => e.1 == aid).map Prod.snd

def recUpdate (recs : List (String × VpnRec)) (aid : String) (v : VpnRec) :
    List (String × VpnRec) :=
  recs.map fun e => if e.1 == aid then (aid, v) else e

/-- One iteration of the second pass of `parse_vpn_configs`. -/
def parseOne (vpn_subnet : String) (fresh : String → Fresh)
    (st : List (String × VpnRec) × List (String × VpnCfg)) (entry : String × Airport) :
    List (String × VpnRec) × List (String × VpnCfg) :=
  let recs := st.1
  let acc := st.2
  let aid := entry.1
  match recLookup recs aid with
  | none => (recs, acc)
  | some v =>
    let protocol_type := strLower (v.type.getD "ipsec")
    let connection_name := v.connection_name.getD (aid ++ "_vpn")
    if protocol_type == "ipsec" then
      let cfg : VpnCfg :=
        { airport_id := aid, connection_name := connection_name,
          protocol := protocol_type, handler := protocol_type,
          remote_subnet := v.remote_subnet, psk := v.psk,
          ike_version := v.ike_version.getD "2",
          encryption := v.encryption.getD "aes256gcm128",
          dh_group := v.dh_group.getD "14",
          lifetime := v.lifetime.getD "3600" }
      (recs, upsert acc connection_name cfg)
    else if protocol_type == "wireguard" then
      let f := fresh aid
      let kb := wgKeyBackfill v f.wgServerKeys f.wgClientKeys
      let recs1 := recUpdate recs aid kb.1
      match clientIpBackfill kb.1
          (assignClientIp vpn_subnet (recs1.map fun e => ⟨e.2.client_ip⟩)) with
      | none => (recs1, acc)
      | some v2 =>
        let recs2 := recUpdate recs1 aid v2
        let cfg : VpnCfg :=
          { airport_id := aid, connection_name := connection_name,
            protocol := protocol_type, handler := protocol_type,
            remote_subnet := v.remote_subnet,
            wireguard := some kb.2, client_ip := v2.client_ip,
            server_port := kb.2.server_port.getD 51820 }
        (recs2, upsert acc connection_name cfg)
    else if protocol_type == "openvpn" then
      let f := fresh aid
      let pb := ovpnPskBackfill v f.ovpnPsk
      let recs1 := recUpdate recs aid pb.1
      match clientIpBackfill pb.1
          (assignClientIp vpn_subnet (recs1.map fun e => ⟨e.2.client_ip⟩)) with
      | none => (recs1, acc)
      | some v2 =>
        let recs2 := recUpdate recs1 aid v2
        let cfg : VpnCfg :=
          { airport_id := aid, connection_name := connection_name,
            protocol := pb.2.protocol.getD "udp", handler := protocol_type,
            remote_subnet := v.remote_subnet,
            openvpn := some pb.2, client_ip := v2.client_ip,
            server_port := pb.2.server_port.getD 1194 }
        (recs2, upsert acc connection_name cfg)
    else (recs, acc)

/-- `parse_vpn_configs`: returns the updated site records (the mutated
`airports.json` dictionaries) and the `vpn_configs` mapping. -/
def parseVpnConfigs (vpn_subnet : String) (fresh : String → Fresh) (config : Config) :
    List (String × VpnRec) × List (String × VpnCfg) :=
  config.foldl (parseOne vpn_subnet fresh) (enabledRecs config, [])

/-! ## `generate_configs` (vpn-manager.py lines 211-250) -/

/-- `by_protocol = defaultdict(dict)` grouping keyed by
`config.get('protocol', 'ipsec')`, in insertion order. -/
def groupByProtocol (cfgs : List (String × VpnCfg)) :
    List (String × List (String × VpnCfg)) :=
  cfgs.foldl (fun acc item =>
    let p := item.2.protocol
    if acc.any (fun g => g.1 == p) then
      acc.map fun g => if g.1 == p then (g.1, g.2 ++ [item]) else g
    else acc ++ [(p, [item])]) []

/-- Keys of `self.handlers`. -/
def handlerProtocols : List String := ["ipsec", "wireguard", "openvpn"]

/-- `generate_configs`: per protocol group, produce the filesystem
operations of the corresponding `_write_*` helper; groups whose protocol
has no handler are skipped with a warning. -/
def generateConfigs (vpn_subnet : String) (freshPsk : String)
    (cfgs : List (String × VpnCfg)) : List FsOp :=
  (groupByProtocol cfgs).foldl (fun acc g =>
    if !(handlerProtocols.contains g.1) then acc
    else if g.1 == "ipsec" then
      acc ++ writeIpsecOps (ipsecGenerateServerConfig g.2) (ipsecGenerateSecretsConfig g.2)
    else if g.1 == "wireguard" then
      acc ++ writeWireguardOps (wireguardGenerateServerConfig vpn_subnet g.2)
    else if g.1 == "openvpn" then
      acc ++ writeOpenvpnOps (openvpnGenerateServerConfig vpn_subnet g.2)
        (openvpnGeneratePskFile g.2 freshPsk)
    else acc) []

/-- `generate_client_configs` (lines 252-277): dispatch on the stored
handler reference; the filename uses the (possibly overwritten)
`protocol` key; a generation failure skips that site. -/
def generateClientConfigs (server_ip : String) (cfgs : List (String × VpnCfg)) :
    List FsOp :=
  cfgs.foldl (fun acc x =>
    let cfg := x.2
    let result :=
      if cfg.handler == "ipsec" then ipsecGenerateClientConfig server_ip x.1 cfg
      else if cfg.handler == "wireguard" then wireguardGenerateClientConfig server_ip x.1 cfg
      else if cfg.handler == "openvpn" then openvpnGenerateClientConfig server_ip x.1 cfg
      else .error "no handler"
    match result with
    | .error _ => acc
    | .ok text =>
        acc ++ writeClientConfigOps (clientConfigPath cfg.airport_id cfg.protocol) text) []

/-- An ipsec-branch connection dictionary whose PSK is absent. -/
def ipsecCfgNoPsk : VpnCfg :=
  { airport_id := "kpao", connection_name := "kpao_vpn",
    protocol := "ipsec", handler := "ipsec",
    remote_subnet := some "192.168.10.0/24", psk := none }

/-- A connection dictionary with no secret material at all. -/
def cfgNoSecrets : VpnCfg :=
  { airport_id := "kpao", connection_name := "kpao_vpn",
    protocol := "wireguard", handler := "wireguard",
    remote_subnet := some "192.168.10.0/24" }

/-- A site record for one enabled OpenVPN site, already holding its
PSK and client address. -/
def ovpnExampleRec : VpnRec :=
  { enabled := true, type := some "openvpn",
    remote_subnet := some "192.168.10.0/24",
    openvpn := some { psk := some "deadbeef" },
    client_ip := some "10.0.0.2/32" }

/-- A configuration holding just that site. -/
def ovpnExampleConfig : Config :=
  [("kpao", { vpn := some ovpnExampleRec })]

/-! ## Failure semantics of the `_write_*` helpers (C6)

A failure after `k` operations leaves the filesystem at the state
reached by the first `k` operations (the failing call itself has no
effect).  `_write_ipsec_configs` additionally runs its `except` block:
when the failure occurred inside the inner `try` (i.e. after the two
`ipsec.conf` operations), it removes the temporary secrets file on a
best-effort basis before re-raising.  `_write_wireguard_config` and
`_write_openvpn_configs` have no such cleanup: their `except` blocks
only log and re-raise. -/

def ipsecFailState (init : Fs) (conf secrets : String) (k : Nat) : Fs :=
  let s := runOps init ((writeIpsecOps conf secrets).take k)
  if 2 ≤ k then applyOp s (.removeOp (ipsecSecretsFile ++ ".tmp")) else s

def wireguardFailState (init : Fs) (cfg : String) (k : Nat) : Fs :=
  runOps init ((writeWireguardOps cfg).take k)

def openvpnFailState (init : Fs) (server psk : String) (k : Nat) : Fs :=
  runOps init ((writeOpenvpnOps server psk).take k)

/-! ## C5: allocator contract -/

/-- Modelled from the spec: numeric value of a dotted-quad address (the
repository has no such function; it is needed only to state "lies inside
the subnet"). -/
def parseIpNat (s : String) : Option Nat :=
  match (pySplitChar s '.').map pyToNat? with
  | [some a, some b, some c, some d] =>
      if a ≤ 255 ∧ b ≤ 255 ∧ c ≤ 255 ∧ d ≤ 255 then
        some (((a * 256 + b) * 256 + c) * 256 + d)
      else none
  | _ => none

/-- Modelled from the spec: membership of an address in a CIDR block. -/
def ipInCidr (ip cidr : String) : Bool :=
  let parts := pySplitChar cidr '/'
  match parseIpNat (parts.headD ""), parseIpNat ip, pyToNat? (parts.getD 1 "") with
  | some base, some addr, some mask =>
      if mask ≤ 32 then (base / 2 ^ (32 - mask)) == (addr / 2 ^ (32 - mask)) else false
  | _, _, _ => false

/-- "Inside `10.0.0.0/16`": the address reads `10.0.x.y` with octets in
range. -/
def inSubnet16 (ip : String) : Prop :=
  ∃ x y, x ≤ 255 ∧ y ≤ 255
    ∧ ip = "10" ++ "." ++ "0" ++ "." ++ toString x ++ "." ++ toString y

/-- A Site VPN Record that "already contains its generated secret
material and a client_ip" for its own protocol: a wireguard-type record
holds its full key pair and a client address, an openvpn-type record
holds its PSK and a client address.  Records of other types carry no
generated material. -/
def sitePopulated (v : VpnRec) : Prop :=
  (strLower (v.type.getD "ipsec") = "wireguard" →
    truthy (v.wireguard.getD {}).server_private_key = true
    ∧ truthy (v.wireguard.getD {}).server_public_key = true
    ∧ truthy (v.wireguard.getD {}).client_private_key = true
    ∧ truthy (v.wireguard.getD {}).client_public_key = true
    ∧ truthy v.client_ip = true)
  ∧ (strLower (v.type.getD "ipsec") = "openvpn" →
    truthy (v.openvpn.getD {}).psk = true ∧ truthy v.client_ip = true)

instance (v : VpnRec) : Decidable (sitePopulated v) := by
  unfold sitePopulated
  infer_instance

/-- A wireguard-type record populated with its key pair and address
(no openvpn material). -/
def wgPopulatedRec : VpnRec :=
  { enabled := true, type := some "wireguard",
    remote_subnet := some "192.168.10.0/24",
    wireguard := some { server_private_key := some "SPRIV", server_public_key := some "SPUB",
                        client_private_key := some "CPRIV", client_public_key := some "CPUB" },
    client_ip := some "10.0.0.5/32" }

/-- An openvpn-type record populated with its PSK and address
(no WireGuard material). -/
def ovpnPopulatedRec : VpnRec :=
  { enabled := true, type := some "openvpn",
    remote_subnet := some "192.168.11.0/24",
    openvpn := some { psk := some "PSKVAL" },
    client_ip := some "10.0.0.6/32" }

/-- A configuration with one populated site per back-filling protocol. -/
def populatedConfig : Config :=
  [("kpao", { vpn := some wgPopulatedRec }), ("ksql", { vpn := some ovpnPopulatedRec })]

/-! ### Filesystem lemmas -/

theorem fsGet_fsSet_eq (fs : Fs) (p : String) (r : FileRec) :
    fsGet (fsSet fs p r) p = some r := by
  simp [fsGet, fsSet, List.find?]

theorem find_filter_ne (fs : Fs) (p q : String) (h : p ≠ q) :
    (fs.filter fun e => e.1 != p).find? (fun e => e.1 == q) =
      fs.find? (fun e => e.1 == q) := by
  have hpq : (p == q) = false := by simpa using h
  induction fs with
  | nil => rfl
  | cons a t ih =>
    cases hb : (a.1 == p) with
    | true =>
      have ha : a.1 = p := by simpa using hb
      have haq : (a.1 == q) = false := by rw [ha]; exact hpq
      simpa [List.filter, List.find?, bne, hb, haq] using ih
    | false =>
      cases hq : (a.1 == q) with
      | true => simp [List.filter, List.find?, bne, hb, hq]
      | false => simpa [List.filter, List.find?, bne, hb, hq] using ih

theorem fsGet_fsSet_ne (fs : Fs) (p q : String) (r : FileRec) (h : p ≠ q) :
    fsGet (fsSet fs p r) q = fsGet fs q := by
  have hpq : (p == q) = false := by simpa using h
  simp [fsGet, fsSet, List.find?, hpq, find_filter_ne fs p q h]

theorem fsGet_fsRemove_ne (fs : Fs) (p q : String) (h : p ≠ q) :
    fsGet (fsRemove fs p) q = fsGet fs q := by
  simp [fsGet, fsRemove, find_filter_ne fs p q h]

theorem fsGet_fsRemove_eq (fs : Fs) (p : String) :
    fsGet (fsRemove fs p) p = none := by
  induction fs with
  | nil => rfl
  | cons a t ih =>
    cases hb : (a.1 == p) with
    | true =>
      have := ih
      simp only [fsGet, fsRemove] at this ⊢
      simp [List.filter, bne, hb, this]
    | false =>
      have := ih
      simp only [fsGet, fsRemove] at this ⊢
      simp [List.filter, List.find?, bne, hb, this]

theorem fsGet_applyOp_not_touches (fs : Fs) (op : FsOp) (q : String)
    (h : ¬ opTouches op q) : fsGet (applyOp fs op) q = fsGet fs q := by
  cases op with
  | openTrunc p =>
    simp [opTouches] at h
    cases hg : fsGet fs p <;> simp [applyOp, hg, fsGet_fsSet_ne _ _ _ _ h]
  | writeData p c =>
    simp [opTouches] at h
    cases hg : fsGet fs p <;> simp [applyOp, hg, fsGet_fsSet_ne _ _ _ _ h]
  | chmodOp p m =>
    simp [opTouches] at h
    cases hg : fsGet fs p <;> simp [applyOp, hg, fsGet_fsSet_ne _ _ _ _ h]
  | renameOp src dst =>
    simp [opTouches] at h
    cases hg : fsGet fs src with
    | none => simp [applyOp, hg]
    | some r =>
      simp [applyOp, hg, fsGet_fsSet_ne _ _ _ _ h.2,
        fsGet_fsRemove_ne _ _ _ h.1]
  | removeOp p =>
    simp [opTouches] at h
    simp [applyOp, fsGet_fsRemove_ne _ _ _ h]

/-! # Claims -/

/-- C2: `assign_client_ip` is claimed to enumerate candidates from
subnet-base + 2 upward, so that for subnet `10.0.0.0/16` with in-use set
`{10.0.0.2}` it returns `10.0.0.3/32`.  Evaluating the code at exactly
that input: the `mask < 24` branch maps loop index `i` to octets
`((i-1)//256, (i-1)%256)`, so the first candidate is `10.0.0.1` (the
reserved server address) and the call returns `10.0.0.1/32`. -/
theorem C2_allocator_off_by_one :
    assignClientIp "10.0.0.0/16" [⟨some "10.0.0.2/32"⟩] = .ok "10.0.0.1/32"
    ∧ ("10.0.0.1/32" : String) ≠ "10.0.0.3/32" :=
  ⟨rfl, by decide⟩

/-- C8: for every outcome of the external daemon query, each handler's
`check_connection_status` yields a status in {up, down, connecting};
any raised exception yields `down` carrying the failure detail, and a
missing tool yields `down`.  The functions are total, so no exception
escapes the handler boundary. -/
theorem C8_status_classification :
    (∀ r, (ipsecCheckConnectionStatus r).status = "up"
        ∨ (ipsecCheckConnectionStatus r).status = "down"
        ∨ (ipsecCheckConnectionStatus r).status = "connecting")
    ∧ (∀ r, (wireguardCheckConnectionStatus r).status = "up"
        ∨ (wireguardCheckConnectionStatus r).status = "down"
        ∨ (wireguardCheckConnectionStatus r).status = "connecting")
    ∧ (∀ r, (openvpnCheckConnectionStatus r).status = "up"
        ∨ (openvpnCheckConnectionStatus r).status = "down"
        ∨ (openvpnCheckConnectionStatus r).status = "connecting")
    ∧ (∀ e, ipsecCheckConnectionStatus (.raised e) = ⟨"down", e⟩)
    ∧ (∀ e, wireguardCheckConnectionStatus (.raised e) = ⟨"down", e⟩)
    ∧ (∀ e, openvpnCheckConnectionStatus (.raised e) = ⟨"down", e⟩)
    ∧ (∀ e, ipsecCheckConnectionStatus (.toolMissing e) = ⟨"down", e⟩)
    ∧ (∀ e, wireguardCheckConnectionStatus (.toolMissing e)
        = ⟨"down", "WireGuard tools not available"⟩)
    ∧ (∀ e, openvpnCheckConnectionStatus (.toolMissing e)
        = ⟨"down", "OpenVPN tools not available"⟩) := by
  refine ⟨?_, ?_, ?_, fun e => rfl, fun e => rfl, fun e => rfl,
    fun e => rfl, fun e => rfl, fun e => rfl⟩
  · intro r
    cases r <;> simp only [ipsecCheckConnectionStatus] <;> (try split_ifs) <;> simp
  · intro r
    cases r <;> simp only [wireguardCheckConnectionStatus] <;> (try split_ifs) <;> simp
  · intro r
    cases r <;> simp only [openvpnCheckConnectionStatus] <;> (try split_ifs) <;> simp

/-- C7 counterexample: the health checks do not probe the first host
address of the remote CIDR.  For `192.168.1.16/28` the first host is
`192.168.1.17`, but all three handlers compute
`'.'.join(ip_parts[:-1]) + '.1' = 192.168.1.1`. -/
theorem C7_counterexample :
    ipsecGatewayIp "192.168.1.16/28" = "192.168.1.1"
    ∧ wireguardGatewayIp "192.168.1.16/28" = "192.168.1.1"
    ∧ openvpnGatewayIp "192.168.1.16/28" = "192.168.1.1"
    ∧ firstHostOfCidr "192.168.1.16/28" = some "192.168.1.17"
    ∧ ("192.168.1.1" : String) ≠ "192.168.1.17" :=
  ⟨rfl, rfl, rfl, rfl, by decide⟩

/-- C7 amended: all three handlers direct the probe at the same single
address, obtained by replacing the last octet of the CIDR's base address
with 1; this coincides with the first host address exactly for bases
whose last octet is 0 (e.g. /24 subnets). -/
theorem C7_probe_target :
    (∀ s, ipsecGatewayIp s = wireguardGatewayIp s
        ∧ wireguardGatewayIp s = openvpnGatewayIp s)
    ∧ ipsecGatewayIp "192.168.1.16/28" = "192.168.1.1"
    ∧ ipsecGatewayIp "192.168.1.0/24" = "192.168.1.1"
    ∧ firstHostOfCidr "192.168.1.0/24" = some "192.168.1.1" :=
  ⟨fun _ => ⟨rfl, rfl⟩, rfl, rfl, rfl⟩

/-- C10: each handler's `generate_server_config` on an empty connection
set (with the default VPN subnet `10.0.0.0/16`) returns a non-empty
minimal configuration with its required setup directives and no
per-connection `conn`/`[Peer]`/`route` stanzas. -/
theorem C10_empty_server_configs :
    (ipsecGenerateServerConfig [] ≠ ""
      ∧ strContains (ipsecGenerateServerConfig []) "config setup" = true
      ∧ strContains (ipsecGenerateServerConfig []) "conn " = false)
    ∧ (wireguardGenerateServerConfig "10.0.0.0/16" [] ≠ ""
      ∧ strContains (wireguardGenerateServerConfig "10.0.0.0/16" []) "[Interface]" = true
      ∧ strContains (wireguardGenerateServerConfig "10.0.0.0/16" [])
          "Address = 10.0.0.1/32" = true
      ∧ strContains (wireguardGenerateServerConfig "10.0.0.0/16" []) "ListenPort = 51820" = true
      ∧ strContains (wireguardGenerateServerConfig "10.0.0.0/16" []) "[Peer]" = false)
    ∧ (openvpnGenerateServerConfig "10.0.0.0/16" [] ≠ ""
      ∧ strContains (openvpnGenerateServerConfig "10.0.0.0/16" []) "port 1194" = true
      ∧ strContains (openvpnGenerateServerConfig "10.0.0.0/16" [])
          "server 10.0.0.0 255.255.0.0" = true
      ∧ strContains (openvpnGenerateServerConfig "10.0.0.0/16" []) "route " = false) := by
  decide

/-- C4 counterexample: with the PSK absent, the IPsec handler's
`generate_client_config` does not fail; it returns the client
instruction text, rendering the missing PSK as `None`. -/
theorem C4_counterexample :
    (ipsecGenerateClientConfig "203.0.113.7" "kpao_vpn" ipsecCfgNoPsk).toOption.isSome = true
    ∧ strContains
        ((ipsecGenerateClientConfig "203.0.113.7" "kpao_vpn" ipsecCfgNoPsk).toOption.getD "")
        "# - Pre-Shared Key: None" = true := by
  decide

/-- C4 amended: the WireGuard and OpenVPN handlers fail with a
missing-credential error when their secret material is absent, while the
IPsec handler always returns the instruction text. -/
theorem C4_missing_credentials (server_ip name : String) (cfg : VpnCfg)
    (hwg : truthy (cfg.wireguard.getD {}).client_private_key = false
         ∨ truthy (cfg.wireguard.getD {}).server_public_key = false)
    (hov : truthy (cfg.openvpn.getD {}).psk = false) :
    wireguardGenerateClientConfig server_ip name cfg = .error ("Missing keys for " ++ name)
    ∧ openvpnGenerateClientConfig server_ip name cfg = .error ("Missing PSK for " ++ name)
    ∧ (ipsecGenerateClientConfig server_ip name cfg).toOption.isSome = true := by
  refine ⟨?_, ?_, rfl⟩
  · rcases hwg with h | h <;> simp [wireguardGenerateClientConfig, h]
  · simp [openvpnGenerateClientConfig, hov]

theorem C4_missing_credentials_witness :
    wireguardGenerateClientConfig "203.0.113.7" "kpao_vpn" cfgNoSecrets
      = .error ("Missing keys for " ++ "kpao_vpn")
    ∧ openvpnGenerateClientConfig "203.0.113.7" "kpao_vpn" cfgNoSecrets
      = .error ("Missing PSK for " ++ "kpao_vpn")
    ∧ (ipsecGenerateClientConfig "203.0.113.7" "kpao_vpn" cfgNoSecrets).toOption.isSome = true :=
  C4_missing_credentials "203.0.113.7" "kpao_vpn" cfgNoSecrets (Or.inl rfl) rfl

/-- C1: evaluating the parse/generate pipeline on one enabled site of
type `openvpn`.  `parse_vpn_configs` stores the handler reference for
`openvpn` but then overwrites the `protocol` key with the transport
protocol (`udp` by default); `generate_configs` groups by that key,
finds no handler named `udp`, and performs no write at all — the
OpenVPN server configuration is never generated. -/
theorem C1_openvpn_group_skipped :
    ((parseVpnConfigs "10.0.0.0/16" (fun _ => {}) ovpnExampleConfig).2.map
        fun x => x.2.protocol) = ["udp"]
    ∧ ((parseVpnConfigs "10.0.0.0/16" (fun _ => {}) ovpnExampleConfig).2.map
        fun x => x.2.handler) = ["openvpn"]
    ∧ generateConfigs "10.0.0.0/16" "freshpsk"
        (parseVpnConfigs "10.0.0.0/16" (fun _ => {}) ovpnExampleConfig).2 = [] := by
  decide

/-- After the open-temp / write / chmod / rename-to-`dst` sequence, the
destination path holds the new content with the mode set before the
rename; this holds whether or not the temp path already existed. -/
theorem fsGet_tmpWriteRename (fs : Fs) (tmp dst content : String) (m : Nat) :
    fsGet (applyOp (applyOp (applyOp (applyOp fs (.openTrunc tmp))
      (.writeData tmp content)) (.chmodOp tmp m)) (.renameOp tmp dst)) dst
      = some ⟨m, content⟩ := by
  cases hg : fsGet fs tmp with
  | some r => simp [applyOp, hg, fsGet_fsSet_eq]
  | none => simp [applyOp, hg, fsGet_fsSet_eq]

theorem fsGet_openTrunc_ne (fs : Fs) (p q : String) (h : p ≠ q) :
    fsGet (applyOp fs (.openTrunc p)) q = fsGet fs q :=
  fsGet_applyOp_not_touches fs (.openTrunc p) q h

theorem fsGet_writeData_ne (fs : Fs) (p c q : String) (h : p ≠ q) :
    fsGet (applyOp fs (.writeData p c)) q = fsGet fs q :=
  fsGet_applyOp_not_touches fs (.writeData p c) q h

theorem fsGet_chmod_ne (fs : Fs) (p : String) (m : Nat) (q : String) (h : p ≠ q) :
    fsGet (applyOp fs (.chmodOp p m)) q = fsGet fs q :=
  fsGet_applyOp_not_touches fs (.chmodOp p m) q h

theorem fsGet_rename_ne (fs : Fs) (src dst q : String) (h1 : src ≠ q) (h2 : dst ≠ q) :
    fsGet (applyOp fs (.renameOp src dst)) q = fsGet fs q :=
  fsGet_applyOp_not_touches fs (.renameOp src dst) q (by
    intro hc; rcases hc with hc | hc
    · exact h1 hc
    · exact h2 hc)

/-- C3 counterexample: `generate_client_configs` writes the per-site
client configuration straight to its final path and only then calls
`chmod`, so an intermediate state exists in which the final path is
visible, truncated (not the prior or the new complete content), with the
default creation mode `0o644` instead of `0o600`. -/
theorem C3_counterexample :
    ∃ s ∈ trajStates [] (writeClientConfigOps (clientConfigPath "kpao" "ipsec") "SECRETDATA"),
      fsGet s (clientConfigPath "kpao" "ipsec") ≠ none
      ∧ fsGet s (clientConfigPath "kpao" "ipsec") ≠ some ⟨0o600, "SECRETDATA"⟩
      ∧ fsGet s (clientConfigPath "kpao" "ipsec") = some ⟨0o644, ""⟩ := by
  decide

/-- C3 amended: the three protocol-level secret artifacts written through
the temp-file/chmod/rename sequence (`ipsec.secrets`, `wg0.conf`,
`psk.key`) are never observable in an intermediate state: every state of
the write shows either the prior contents of the final path or the new
complete content with mode `0o600`. -/
theorem C3_secret_files_atomic (init : Fs) (conf secrets wg server psk : String) :
    (∀ s ∈ trajStates init (writeIpsecOps conf secrets),
        secretViewOk init ipsecSecretsFile secrets s)
    ∧ (∀ s ∈ trajStates init (writeWireguardOps wg),
        secretViewOk init wgConfigFile wg s)
    ∧ (∀ s ∈ trajStates init (writeOpenvpnOps server psk),
        secretViewOk init openvpnPskFile psk s) := by
  have hconf : ipsecConfFile ≠ ipsecSecretsFile := by decide
  have hitmp : ipsecSecretsFile ++ ".tmp" ≠ ipsecSecretsFile := by decide
  have hwtmp : wgConfigFile ++ ".tmp" ≠ wgConfigFile := by decide
  have hstmp : openvpnServerFile ++ ".tmp" ≠ openvpnPskFile := by decide
  have hsrv : openvpnServerFile ≠ openvpnPskFile := by decide
  have hptmp : openvpnPskFile ++ ".tmp" ≠ openvpnPskFile := by decide
  refine ⟨?_, ?_, ?_⟩
  · intro s hs
    simp only [writeIpsecOps, trajStates, List.mem_cons, List.not_mem_nil, or_false]
      at hs
    rcases hs with rfl | rfl | rfl | rfl | rfl | rfl | rfl
    · exact Or.inl rfl
    · exact Or.inl (fsGet_openTrunc_ne _ _ _ hconf)
    · exact Or.inl (by
        rw [fsGet_writeData_ne _ _ _ _ hconf, fsGet_openTrunc_ne _ _ _ hconf])
    · exact Or.inl (by
        rw [fsGet_openTrunc_ne _ _ _ hitmp, fsGet_writeData_ne _ _ _ _ hconf,
          fsGet_openTrunc_ne _ _ _ hconf])
    · exact Or.inl (by
        rw [fsGet_writeData_ne _ _ _ _ hitmp, fsGet_openTrunc_ne _ _ _ hitmp,
          fsGet_writeData_ne _ _ _ _ hconf, fsGet_openTrunc_ne _ _ _ hconf])
    · exact Or.inl (by
        rw [fsGet_chmod_ne _ _ _ _ hitmp, fsGet_writeData_ne _ _ _ _ hitmp,
          fsGet_openTrunc_ne _ _ _ hitmp, fsGet_writeData_ne _ _ _ _ hconf,
          fsGet_openTrunc_ne _ _ _ hconf])
    · exact Or.inr (fsGet_tmpWriteRename _ _ _ _ _)
  · intro s hs
    simp only [writeWireguardOps, trajStates, List.mem_cons, List.not_mem_nil, or_false]
      at hs
    rcases hs with rfl | rfl | rfl | rfl | rfl
    · exact Or.inl rfl
    · exact Or.inl (fsGet_openTrunc_ne _ _ _ hwtmp)
    · exact Or.inl (by
        rw [fsGet_writeData_ne _ _ _ _ hwtmp, fsGet_openTrunc_ne _ _ _ hwtmp])
    · exact Or.inl (by
        rw [fsGet_chmod_ne _ _ _ _ hwtmp, fsGet_writeData_ne _ _ _ _ hwtmp,
          fsGet_openTrunc_ne _ _ _ hwtmp])
    · exact Or.inr (fsGet_tmpWriteRename _ _ _ _ _)
  · intro s hs
    simp only [writeOpenvpnOps, trajStates, List.mem_cons, List.not_mem_nil, or_false]
      at hs
    rcases hs with rfl | rfl | rfl | rfl | rfl | rfl | rfl | rfl | rfl
    · exact Or.inl rfl
    · exact Or.inl (fsGet_openTrunc_ne _ _ _ hstmp)
    · exact Or.inl (by
        rw [fsGet_writeData_ne _ _ _ _ hstmp, fsGet_openTrunc_ne _ _ _ hstmp])
    · exact Or.inl (by
        rw [fsGet_chmod_ne _ _ _ _ hstmp, fsGet_writeData_ne _ _ _ _ hstmp,
          fsGet_openTrunc_ne _ _ _ hstmp])
    · exact Or.inl (by
        rw [fsGet_rename_ne _ _ _ _ hstmp hsrv, fsGet_chmod_ne _ _ _ _ hstmp,
          fsGet_writeData_ne _ _ _ _ hstmp, fsGet_openTrunc_ne _ _ _ hstmp])
    · exact Or.inl (by
        rw [fsGet_openTrunc_ne _ _ _ hptmp, fsGet_rename_ne _ _ _ _ hstmp hsrv,
          fsGet_chmod_ne _ _ _ _ hstmp, fsGet_writeData_ne _ _ _ _ hstmp,
          fsGet_openTrunc_ne _ _ _ hstmp])
    · exact Or.inl (by
        rw [fsGet_writeData_ne _ _ _ _ hptmp, fsGet_openTrunc_ne _ _ _ hptmp,
          fsGet_rename_ne _ _ _ _ hstmp hsrv, fsGet_chmod_ne _ _ _ _ hstmp,
          fsGet_writeData_ne _ _ _ _ hstmp, fsGet_openTrunc_ne _ _ _ hstmp])
    · exact Or.inl (by
        rw [fsGet_chmod_ne _ _ _ _ hptmp, fsGet_writeData_ne _ _ _ _ hptmp,
          fsGet_openTrunc_ne _ _ _ hptmp, fsGet_rename_ne _ _ _ _ hstmp hsrv,
          fsGet_chmod_ne _ _ _ _ hstmp, fsGet_writeData_ne _ _ _ _ hstmp,
          fsGet_openTrunc_ne _ _ _ hstmp])
    · exact Or.inr (fsGet_tmpWriteRename _ _ _ _ _)

theorem C3_secret_files_atomic_witness :
    secretViewOk [] ipsecSecretsFile "S" (runOps [] (writeIpsecOps "C" "S")) :=
  (C3_secret_files_atomic [] "C" "S" "w" "sv" "p").1
    (runOps [] (writeIpsecOps "C" "S")) (by decide)

/-- C6 counterexample: a failure at the final rename of
`_write_wireguard_config` (after open, write and chmod of the temp file
succeeded, i.e. `k = 3`) leaves `wg0.conf.tmp` behind, and likewise a
failure at the final rename of `_write_openvpn_configs` (`k = 7`) leaves
`psk.key.tmp` behind — no cleanup runs before the error propagates. -/
theorem C6_counterexample :
    fsGet (wireguardFailState [] "WGCONF" 3) (wgConfigFile ++ ".tmp")
      = some ⟨0o600, "WGCONF"⟩
    ∧ fsGet (openvpnFailState [] "SRV" "PSKSECRET" 7) (openvpnPskFile ++ ".tmp")
      = some ⟨0o600, "PSKSECRET"⟩ := by
  decide

/-- C6 amended: for the IPsec secrets write, a failure at any point of
the sequence leaves no `ipsec.secrets.tmp` file behind (given that none
existed when the call started): failures before the temp file is created
never create it, and later failures trigger the `except` cleanup. -/
theorem C6_ipsec_tmp_cleanup (init : Fs) (conf secrets : String) (k : Nat)
    (hinit : fsGet init (ipsecSecretsFile ++ ".tmp") = none) (hk : k < 6) :
    fsGet (ipsecFailState init conf secrets k) (ipsecSecretsFile ++ ".tmp") = none := by
  have hconf : ipsecConfFile ≠ ipsecSecretsFile ++ ".tmp" := by decide
  interval_cases k
  · simpa [ipsecFailState, writeIpsecOps, runOps] using hinit
  · simp only [ipsecFailState, writeIpsecOps, runOps]
    norm_num [List.take, List.foldl]
    rw [fsGet_openTrunc_ne _ _ _ hconf]
    exact hinit
  · simp [ipsecFailState, applyOp, fsGet_fsRemove_eq]
  · simp [ipsecFailState, applyOp, fsGet_fsRemove_eq]
  · simp [ipsecFailState, applyOp, fsGet_fsRemove_eq]
  · simp [ipsecFailState, applyOp, fsGet_fsRemove_eq]

theorem C6_ipsec_tmp_cleanup_witness :
    fsGet (ipsecFailState [] "C" "S" 3) (ipsecSecretsFile ++ ".tmp") = none :=
  C6_ipsec_tmp_cleanup [] "C" "S" 3 rfl (by decide)

/-- C5 counterexample: for the subnet `10.0.4.0/22` with an empty in-use
set (far below capacity), the `mask < 24` branch rebuilds candidates
from the first two octets only, so the allocator returns
`10.0.0.1/32` — an address outside `10.0.4.0/22`. -/
theorem C5_counterexample :
    assignClientIp "10.0.4.0/22" [] = .ok "10.0.0.1/32"
    ∧ ipInCidr "10.0.0.1" "10.0.4.0/22" = false
    ∧ ipInCidr "10.0.4.1" "10.0.4.0/22" = true :=
  ⟨rfl, by decide, by decide⟩

theorem findFreeIp_spec_some (used : List String) (cand : Nat → String) (l : List Nat)
    (h : ∃ i ∈ l, cand i ∉ used) :
    ∃ i ∈ l, findFreeIp used cand l = some (cand i ++ "/32") ∧ cand i ∉ used := by
  induction l with
  | nil => rcases h with ⟨i, hi, _⟩; cases hi
  | cons a t ih =>
    by_cases ha : cand a ∈ used
    · rcases h with ⟨i, hi, hfree⟩
      rcases List.mem_cons.mp hi with rfl | hit
      · exact absurd ha hfree
      · rcases ih ⟨i, hit, hfree⟩ with ⟨j, hj, heq, hjf⟩
        exact ⟨j, List.mem_cons_of_mem _ hj, by simpa [findFreeIp, ha] using heq, hjf⟩
    · exact ⟨a, List.mem_cons_self a t, by simp [findFreeIp, ha], ha⟩

theorem findFreeIp_spec_none (used : List String) (cand : Nat → String) (l : List Nat)
    (h : ∀ i ∈ l, cand i ∈ used) : findFreeIp used cand l = none := by
  induction l with
  | nil => rfl
  | cons a t ih =>
    simp [findFreeIp, h a (List.mem_cons_self a t),
      ih fun i hi => h i (List.mem_cons_of_mem _ hi)]

/-- On the default subnet the allocator reduces to the `mask < 24`
search over loop indices 2 through 65534. -/
theorem assign16_unfold (existing : List ExistingConfig) :
    assignClientIp "10.0.0.0/16" existing =
      match findFreeIp (collectUsedIps existing) (mkIp16 "10" "0") (List.range' 2 65533) with
      | some ip => .ok ip
      | none => .error "No available IPs in VPN subnet 10.0.0.0/16" := rfl

/-- C5 amended: on the default subnet `10.0.0.0/16`, whenever some
enumerated candidate (`10.0.x.y` for loop indices 2..65534) is free, the
allocator returns a `/32` host address that is not in the in-use set and
lies inside `10.0.0.0/16`; when every enumerated candidate is in use it
raises the exhaustion error instead of returning an address.  (For
subnets whose base has a nonzero third octet and prefix < 24 the
returned address can fall outside the subnet, and the enumeration starts
at base+1, not base+2.) -/
theorem C5_allocator_contract (existing : List ExistingConfig) :
    ((∃ i, 2 ≤ i ∧ i < 65535 ∧ mkIp16 "10" "0" i ∉ collectUsedIps existing) →
      ∃ ip, assignClientIp "10.0.0.0/16" existing = .ok (ip ++ "/32")
        ∧ ip ∉ collectUsedIps existing ∧ inSubnet16 ip)
    ∧ ((∀ i, 2 ≤ i → i < 65535 → mkIp16 "10" "0" i ∈ collectUsedIps existing) →
      assignClientIp "10.0.0.0/16" existing
        = .error "No available IPs in VPN subnet 10.0.0.0/16") := by
  constructor
  · intro hfree
    have hex : ∃ i ∈ List.range' 2 65533, mkIp16 "10" "0" i ∉ collectUsedIps existing := by
      rcases hfree with ⟨i, h2, h65, hni⟩
      refine ⟨i, ?_, hni⟩
      rw [List.mem_range']
      exact ⟨i - 2, by omega, by omega⟩
    rcases findFreeIp_spec_some _ _ _ hex with ⟨i, hi, heq, hif⟩
    refine ⟨mkIp16 "10" "0" i, ?_, hif, ?_⟩
    · rw [assign16_unfold, heq]
    · rw [List.mem_range'] at hi
      rcases hi with ⟨j, hj, rfl⟩
      refine ⟨(2 + 1 * j - 1) / 256, (2 + 1 * j - 1) % 256, ?_, ?_, rfl⟩
      · have h1 : 2 + 1 * j - 1 ≤ 65533 := by omega
        calc (2 + 1 * j - 1) / 256 ≤ 65533 / 256 := Nat.div_le_div_right h1
        _ = 255 := by norm_num
      · have := Nat.mod_lt (2 + 1 * j - 1) (y := 256) (by norm_num)
        omega
  · intro hall
    rw [assign16_unfold, findFreeIp_spec_none]
    intro i hi
    rw [List.mem_range'] at hi
    rcases hi with ⟨j, hj, rfl⟩
    exact hall _ (by omega) (by omega)

theorem C5_allocator_contract_witness :
    ∃ ip, assignClientIp "10.0.0.0/16" [⟨some "10.0.0.2/32"⟩] = .ok (ip ++ "/32")
      ∧ ip ∉ collectUsedIps [⟨some "10.0.0.2/32"⟩] ∧ inSubnet16 ip :=
  (C5_allocator_contract [⟨some "10.0.0.2/32"⟩]).1 ⟨2, by norm_num, by norm_num, by decide⟩

/-! ### C9: idempotence of a whole `parse_vpn_configs` run -/

theorem recLookup_mem (recs : List (String × VpnRec)) (aid : String) (v : VpnRec)
    (h : recLookup recs aid = some v) : (aid, v) ∈ recs := by
  induction recs with
  | nil => cases h
  | cons a t ih =>
    unfold recLookup at h ih
    cases hb : (a.1 == aid) with
    | true =>
      simp only [List.find?, hb, Option.map_some'] at h
      have h1 : a.1 = aid := by simpa using hb
      have : a = (aid, v) := by
        cases a
        simp_all
      rw [← this]
      exact List.mem_cons_self a t
    | false =>
      simp only [List.find?, hb] at h
      exact List.mem_cons_of_mem _ (ih h)

theorem recUpdate_not_mem (t : List (String × VpnRec)) (aid : String) (v : VpnRec)
    (h : aid ∉ t.map Prod.fst) : recUpdate t aid v = t := by
  induction t with
  | nil => rfl
  | cons a t ih =>
    simp only [List.map_cons, List.mem_cons] at h
    push_neg at h
    have hne : (a.1 == aid) = false := by
      simp only [beq_eq_false_iff_ne]
      exact fun hc => h.1 hc.symm
    simp only [recUpdate, List.map_cons, hne, Bool.false_eq_true, if_false]
    have := ih h.2
    simp only [recUpdate] at this
    rw [this]

theorem recUpdate_self (recs : List (String × VpnRec)) (aid : String) (v : VpnRec)
    (hmem : (aid, v) ∈ recs) (hnd : (recs.map Prod.fst).Nodup) :
    recUpdate recs aid v = recs := by
  induction recs with
  | nil => cases hmem
  | cons a t ih =>
    rw [List.map_cons, List.nodup_cons] at hnd
    rcases List.mem_cons.mp hmem with heq | hmem'
    · have ha : a = (aid, v) := heq.symm
      subst ha
      have htail : recUpdate t aid v = t := recUpdate_not_mem t aid v hnd.1
      simp only [recUpdate, List.map_cons, beq_self_eq_true, if_true]
      simp only [recUpdate] at htail
      rw [htail]
    · have haid : aid ∈ t.map Prod.fst :=
        List.mem_map.mpr ⟨(aid, v), hmem', rfl⟩
      have hne : (a.1 == aid) = false := by
        simp only [beq_eq_false_iff_ne]
        exact fun hc => hnd.1 (hc ▸ haid)
      have htail := ih hmem' hnd.2
      simp only [recUpdate, List.map_cons, hne, Bool.false_eq_true, if_false]
      simp only [recUpdate] at htail
      rw [htail]

theorem parseOne_preserves (vpn_subnet : String) (fresh : String → Fresh)
    (recs : List (String × VpnRec)) (acc : List (String × VpnCfg))
    (entry : String × Airport)
    (hnd : (recs.map Prod.fst).Nodup)
    (hpop : ∀ e ∈ recs, sitePopulated e.2) :
    (parseOne vpn_subnet fresh (recs, acc) entry).1 = recs := by
  cases hlook : recLookup recs entry.1 with
  | none => simp [parseOne, hlook]
  | some v =>
    have hmem := recLookup_mem recs entry.1 v hlook
    have hv : sitePopulated v := hpop _ hmem
    have hupd : recUpdate recs entry.1 v = recs := recUpdate_self recs entry.1 v hmem hnd
    simp only [parseOne, hlook]
    split_ifs with h1 h2 h3
    · rfl
    · have hpt : strLower (v.type.getD "ipsec") = "wireguard" := by simpa using h2
      have hw := hv.1 hpt
      have hkb : wgKeyBackfill v (fresh entry.1).wgServerKeys (fresh entry.1).wgClientKeys
          = (v, v.wireguard.getD {}) := by
        simp [wgKeyBackfill, hw.1]
      have hcb : ∀ X, clientIpBackfill v X = some v := by
        intro X
        simp [clientIpBackfill, hw.2.2.2.2]
      simp only [hkb, hcb, hupd]
    · have hpt : strLower (v.type.getD "ipsec") = "openvpn" := by simpa using h3
      have ho := hv.2 hpt
      have hko : ovpnPskBackfill v (fresh entry.1).ovpnPsk = (v, v.openvpn.getD {}) := by
        simp [ovpnPskBackfill, ho.1]
      have hcb : ∀ X, clientIpBackfill v X = some v := by
        intro X
        simp [clientIpBackfill, ho.2]
      simp only [hko, hcb, hupd]
    · rfl

/-- C9: a `parse_vpn_configs` run over a configuration whose enabled
site records each already hold their protocol's generated secret
material and a client address (WireGuard key pair for wireguard-type
sites, PSK for openvpn-type sites) returns the site records unchanged:
no key or PSK is regenerated and no client address is reassigned,
whatever fresh material and subnet the run would have used. -/
theorem C9_parse_idempotent (vpn_subnet : String) (fresh : String → Fresh)
    (config : Config)
    (hnd : ((enabledRecs config).map Prod.fst).Nodup)
    (hpop : ∀ e ∈ enabledRecs config, sitePopulated e.2) :
    (parseVpnConfigs vpn_subnet fresh config).1 = enabledRecs config := by
  unfold parseVpnConfigs
  have hfold : ∀ (l : List (String × Airport)) (acc : List (String × VpnCfg)),
      (l.foldl (parseOne vpn_subnet fresh) (enabledRecs config, acc)).1
        = enabledRecs config := by
    intro l
    induction l with
    | nil => intro acc; rfl
    | cons e t ih =>
      intro acc
      rcases hp : parseOne vpn_subnet fresh (enabledRecs config, acc) e with ⟨r1, a1⟩
      have hr : r1 = enabledRecs config := by
        have h := parseOne_preserves vpn_subnet fresh (enabledRecs config) acc e hnd hpop
        rw [hp] at h
        exact h
      subst hr
      rw [List.foldl_cons, hp]
      exact ih a1
  exact hfold config []

theorem C9_parse_idempotent_witness :
    (parseVpnConfigs "10.0.0.0/16" (fun _ => {}) populatedConfig).1
      = enabledRecs populatedConfig :=
  C9_parse_idempotent "10.0.0.0/16" (fun _ => {}) populatedConfig (by decide) (by decide)
